import Mathlib

/-!
Verification of the reclaim-agent patch-ingestion pipeline, milestone state
machine and orchestrator (src/agent/runner.py, src/agent/milestones.py,
src/agent/config.py, src/agent/run.py) against its natural-language
specification.  External collaborators (git, the GitHub REST client, the
model HTTP client, PyYAML) are modelled at their interface, as the spec
prescribes; everything else is translated from the Python source.
-/

namespace Reclaim

/-! ## Character and string utilities (Python `str` / `re` helpers) -/

/-- Python `\s` on the ASCII range, as used by `re` and `str.strip`. -/
def isWS (c : Char) : Bool :=
  c = ' ' || c = '\t' || c = '\n' || c = '\r' || c = '\x0b' || c = '\x0c'

/-- Python `\d` on the ASCII range. -/
def isDigitC (c : Char) : Bool :=
  '0' ≤ c && c ≤ '9'

/-- Does `n` occur as a leading segment of `h`? -/
def leadsWith : List Char → List Char → Bool
  | [], _ => true
  | _ :: _, [] => false
  | a :: n, b :: h => a = b && leadsWith n h

/-- Does `n` occur as a contiguous segment of `h` (Python `in`)? -/
def hasSub (n : List Char) : List Char → Bool
  | [] => n.isEmpty
  | c :: t => leadsWith n (c :: t) || hasSub n t

/-- Python `needle in hay` on strings. -/
def hasSubstr (n h : String) : Bool :=
  hasSub n.toList h.toList

/-- Python `s.split("\n")`. -/
def splitNl : List Char → List (List Char)
  | [] => [[]]
  | '\n' :: t => [] :: splitNl t
  | c :: t =>
    match splitNl t with
    | [] => [[c]]
    | l :: ls => (c :: l) :: ls

/-- Python `"\n".join(...)` on split lines. -/
def joinNl (ls : List (List Char)) : String :=
  ⟨(ls.intersperse ['\n']).foldr (· ++ ·) []⟩

/-- Python `s.strip()` on a character list. -/
def pyStripL (l : List Char) : List Char :=
  ((l.dropWhile isWS).reverse.dropWhile isWS).reverse

/-- Python `s.strip()`. -/
def pyStrip (s : String) : String :=
  ⟨pyStripL s.toList⟩

/-- Python `s.lower()` on a character list (ASCII inputs here). -/
def lowerL (l : List Char) : List Char :=
  l.map Char.toLower

/-- Python `repr` of a list of strings, as interpolated by f-strings. -/
def pyListRepr (l : List String) : String :=
  "[" ++ String.intercalate ", " (l.map (fun s => "'" ++ s ++ "'")) ++ "]"

/-! ## Hunk-header regexes of `Runner.apply_patch` (runner.py lines 354-356)

The three patterns are applied with `re.MULTILINE` to the cleaned patch, so
each is equivalent to a per-line test anchored at line start. -/

/-- Scans for an occurrence of whitespace immediately followed by `@@`. -/
def hasWsAtAt : List Char → Bool
  | a :: b :: c :: t => (isWS a && b = '@' && c = '@') || hasWsAtAt (b :: c :: t)
  | _ => false

/-- Line-level match of `^@@\s+.*\s+@@` (`hunk_header_pattern`): after the
leading `@@` there must be a whitespace character, and strictly later a
whitespace character followed by `@@`. -/
def hunkHeaderLine (l : List Char) : Bool :=
  match l with
  | '@' :: '@' :: a :: t => isWS a && hasWsAtAt t
  | _ => false

/-- Line-level match of `^@@\s+\.\.\..*@@` (`placeholder_hunk_pattern`). -/
def placeholderLine (l : List Char) : Bool :=
  match l with
  | '@' :: '@' :: r =>
    let w := r.takeWhile isWS
    let r1 := r.dropWhile isWS
    !w.isEmpty && leadsWith ['.', '.', '.'] r1 && hasSub ['@', '@'] (r1.drop 3)
  | _ => false

/-- Helper for `zeroLenLine`: consumes `\d+,0` and returns the rest. -/
def parseNumComma0 (l : List Char) : Option (List Char) :=
  let d := l.takeWhile isDigitC
  let r := l.dropWhile isDigitC
  if d.isEmpty then none
  else
    match r with
    | ',' :: '0' :: t => some t
    | _ => none

/-- Line-level match of `^@@\s+-\d+,0\s+\+\d+,0\s+@@`
(`zero_length_hunk_pattern`). -/
def zeroLenLine (l : List Char) : Bool :=
  match l with
  | '@' :: '@' :: r =>
    let w := r.takeWhile isWS
    let r1 := r.dropWhile isWS
    if w.isEmpty then false
    else
      match r1 with
      | '-' :: r2 =>
        match parseNumComma0 r2 with
        | none => false
        | some r3 =>
          let w2 := r3.takeWhile isWS
          let r4 := r3.dropWhile isWS
          if w2.isEmpty then false
          else
            match r4 with
            | '+' :: r5 =>
              match parseNumComma0 r5 with
              | none => false
              | some r6 =>
                let w3 := r6.takeWhile isWS
                let r7 := r6.dropWhile isWS
                !w3.isEmpty && leadsWith ['@', '@'] r7
            | _ => false
      | _ => false
  | _ => false

/-! ## `Runner.apply_patch` validation phase (runner.py lines 335-410)

The validation phase runs before any `git apply` invocation; `git apply
--check` (the dry run) and `git apply` are reached only through the
`proceed` verdict. -/

/-- Rejection messages of `apply_patch`, verbatim from runner.py. -/
def msgNoDiff : String := "No diff found in patch"

/-- Message for placeholder hunk headers (runner.py lines 360-363). -/
def msgPlaceholderHunk : String :=
  "Patch contains placeholder hunk headers (@@ ... @@). LLM must provide REAL line numbers like @@ -10,5 +10,8 @@."

/-- Message for zero-length hunks (runner.py lines 367-370). -/
def msgZeroLenHunk : String :=
  "Patch contains zero-length hunks (e.g. @@ -1,0 +0,0 @@). Each hunk must add and/or remove at least one line."

/-- Message for missing hunk headers (runner.py line 374). -/
def msgMissingHunk : String :=
  "Patch is missing hunk headers. Must include line numbers like @@ -10,5 +10,8 @@."

/-- Message for placeholder file paths (runner.py lines 394-397). -/
def msgPlaceholderPath (p : String) : String :=
  "Patch targets placeholder file path '" ++ p ++ "'. LLM must use REAL file paths from the repository (see TARGET FILES and CURRENT FILE CONTENTS)."

/-- Message for nonexistent target files (runner.py lines 403-406). -/
def msgTargetMissing (p : String) : String :=
  "Patch targets file '" ++ p ++ "' which does not exist in the repository. Use REAL file paths from the repository. If creating a new file, use '--- /dev/null'."

/-- Message for targets that exist but are not regular files (runner.py 408-410). -/
def msgNotRegular (p : String) : String :=
  "Patch targets '" ++ p ++ "' which exists but is not a regular file."

/-- Outcome of the validation phase of `apply_patch`.  Constructor names
follow the spec's failure taxonomy (section 4.2); each rejection carries the
exact message string the code returns.  `proceed` is the unique outcome that
goes on to invoke `git apply --check` / `git apply`. -/
inductive PatchVerdict where
  | noDiffFound (msg : String)
  | placeholderHunk (msg : String)
  | zeroLengthHunk (msg : String)
  | missingHunkHeader (msg : String)
  | placeholderPath (path msg : String)
  | targetFileMissing (path msg : String)
  | notRegularFile (path msg : String)
  | proceed (cleanPatch : String)
deriving DecidableEq, Repr

/-- Drops leading lines until the first one starting with `--- ` or `+++ `
(runner.py lines 338-347); `none` when no such line exists. -/
def dropTillHeader : List (List Char) → Option (List (List Char))
  | [] => none
  | l :: t =>
    if leadsWith ("--- ".toList) l || leadsWith ("+++ ".toList) l then some (l :: t)
    else dropTillHeader t

/-- Normalizes a `--- ` header path: strip, then drop a `a/` git prefix
(runner.py lines 386-389). -/
def headerPathOf (l : List Char) : List Char :=
  let hp := pyStripL (l.drop 4)
  if leadsWith ['a', '/'] hp then hp.drop 2 else hp

/-- Does the lowered path trip the placeholder-path rejection
(runner.py line 393)?  Note `example` is compared by equality, not
containment. -/
def placeholderPathHit (hp : List Char) : Bool :=
  let low := lowerL hp
  hasSub ("placeholder".toList) low || hasSub ("dummy".toList) low ||
    low == ("example".toList)

/-- Validation phase of `Runner.apply_patch` (runner.py lines 335-410),
up to but excluding the `git apply --check` invocation.  `fsFiles` is the
set of regular files in the working copy, `nonFiles` the set of paths that
exist but are not regular files. -/
def applyPatchVerdict (patch : String) (fsFiles nonFiles : List String) :
    PatchVerdict :=
  let lines := splitNl (pyStrip patch).toList
  match dropTillHeader lines with
  | none => .noDiffFound msgNoDiff
  | some cl =>
    if cl.any placeholderLine then .placeholderHunk msgPlaceholderHunk
    else if cl.any zeroLenLine then .zeroLengthHunk msgZeroLenHunk
    else if !(cl.any hunkHeaderLine) then .missingHunkHeader msgMissingHunk
    else
      match cl.find? (fun l => leadsWith ("--- ".toList) l) with
      | none => .proceed (joinNl cl)
      | some h =>
        let hp := headerPathOf h
        if placeholderPathHit hp then
          .placeholderPath ⟨hp⟩ (msgPlaceholderPath ⟨hp⟩)
        else if hp == ("/dev/null".toList) then .proceed (joinNl cl)
        else if (fsFiles.map String.toList).contains hp then .proceed (joinNl cl)
        else if (nonFiles.map String.toList).contains hp then
          .notRegularFile ⟨hp⟩ (msgNotRegular ⟨hp⟩)
        else .targetFileMissing ⟨hp⟩ (msgTargetMissing ⟨hp⟩)

/-- Does a verdict reach the VCS apply step (`git apply --check`)? -/
def invokesGitApply : PatchVerdict → Bool
  | .proceed _ => true
  | _ => false

/-! ## Whole-file block parsing (runner.py lines 209-333)

The block regex is
`===FILE_START:\s*(.+?)\s*===\s*\n(.*?)\n===FILE_END:\s*\1\s*===` with
`DOTALL | MULTILINE`; we implement its leftmost, non-overlapping `finditer`
behaviour directly on character lists. -/

/-- The literal start marker of a file block. -/
def markerStart : List Char := "===FILE_START:".toList

/-- The literal end marker of a file block. -/
def markerEnd : List Char := "===FILE_END:".toList

/-- Drops a literal from the front of a list, if present. -/
def dropLit (lit s : List Char) : Option (List Char) :=
  if leadsWith lit s then some (s.drop lit.length) else none

/-- Splits at the first occurrence of `sub`, returning the text before it
and the text after it. -/
def splitAtSub (sub : List Char) : List Char → Option (List Char × List Char)
  | [] => if sub.isEmpty then some ([], []) else none
  | c :: t =>
    if leadsWith sub (c :: t) then some ([], (c :: t).drop sub.length)
    else
      match splitAtSub sub t with
      | some (a, b) => some (c :: a, b)
      | none => none

/-- Matches `\s*\1\s*===` after the end marker: skip whitespace, the path
literal, whitespace, then `===`; returns the rest of the input. -/
def checkEndTail (path s : List Char) : Option (List Char) :=
  match dropLit path (s.dropWhile isWS) with
  | none => none
  | some s2 => dropLit ['=', '=', '='] (s2.dropWhile isWS)

/-- Finds the earliest `\n===FILE_END:` whose tail matches the path
(the non-greedy `(.*?)` of the block regex); returns the block content and
the input remaining after the whole match. -/
def findEndMarker (path : List Char) : List Char → Option (List Char × List Char)
  | [] => none
  | c :: t =>
    (if c = '\n' then
      match dropLit markerEnd t with
      | some s1 =>
        match checkEndTail path s1 with
        | some rest => some (([] : List Char), rest)
        | none => none
      | none => none
    else none) <|>
    ((findEndMarker path t).map (fun pr => (c :: pr.1, pr.2)))

/-- Matches one block starting right after `===FILE_START:`: the path group
(`\s*(.+?)\s*===`, i.e. the trimmed text up to the first `===`), the
`\s*\n` separator (whose trailing whitespace after its last newline belongs
to the content), then the content up to the matching end marker. -/
def matchBlockAt (s : List Char) : Option (String × String × List Char) :=
  match splitAtSub ['=', '=', '='] s with
  | none => none
  | some (t, afterEq) =>
    let path := pyStripL t
    if t.isEmpty || path.isEmpty then none
    else
      let w := afterEq.takeWhile isWS
      let rest := afterEq.dropWhile isWS
      if !w.contains '\n' then none
      else
        let tailW := (w.reverse.takeWhile (fun c => c ≠ '\n')).reverse
        match findEndMarker path (tailW ++ rest) with
        | none => none
        | some (content, post) => some (⟨path⟩, ⟨content⟩, post)

/-- Fuel-driven scan implementing `file_pattern.finditer` (leftmost match,
continue after each match). -/
def findBlocksAux (fuel : Nat) (s : List Char) : List (String × String) :=
  match fuel with
  | 0 => []
  | fuel + 1 =>
    match s with
    | [] => []
    | c :: t =>
      if leadsWith markerStart (c :: t) then
        match matchBlockAt (List.drop markerStart.length (c :: t)) with
        | some (p, cnt, rest) => (p, cnt) :: findBlocksAux fuel rest
        | none => findBlocksAux fuel t
      else findBlocksAux fuel t

/-- All file blocks of the model output, in order (runner.py lines 220-226). -/
def findBlocks (s : String) : List (String × String) :=
  findBlocksAux (s.toList.length + 1) s.toList

/-- Path normalization of a block path (runner.py lines 233-240): strip,
then drop a leading `/`. -/
def normPath (p : String) : String :=
  let l := pyStripL p.toList
  ⟨if leadsWith ['/'] l then l.drop 1 else l⟩

/-! ## Working-copy and index state

Association lists keyed by path model the regular files of the working
copy, the git index and the HEAD tree.  The git primitives used by
`_parse_file_content_format` (`git add`, `git diff --cached`, `git reset`)
are external collaborators; per the spec they are modelled at their
interface. -/

/-- Looks a key up in an association list. -/
def lookupA (m : List (String × String)) (k : String) : Option String :=
  match m with
  | [] => none
  | (k', v) :: t => if k' = k then some v else lookupA t k

/-- Sets a key in an association list (replace in place, else append). -/
def setA (m : List (String × String)) (k v : String) : List (String × String) :=
  match m with
  | [] => [(k, v)]
  | (k', v') :: t => if k' = k then (k, v) :: t else (k', v') :: setA t k v

/-- Removes a key from an association list. -/
def eraseA (m : List (String × String)) (k : String) : List (String × String) :=
  match m with
  | [] => []
  | (k', v') :: t => if k' = k then t else (k', v') :: eraseA t k

/-- Insertion-ordered deduplication (models Python set iteration order
deterministically). -/
def dedupL (l : List String) : List String :=
  l.foldl (fun acc x => if acc.contains x then acc else acc ++ [x]) []

/-- Working copy, index and HEAD tree of the checkout.  `nonfiles` are
paths that exist but are not regular files. -/
structure GitState where
  fs : List (String × String)
  index : List (String × String)
  head : List (String × String)
  nonfiles : List String := []
deriving DecidableEq, Repr

/-- Paths whose staged content differs from HEAD. -/
def changedPaths (head index : List (String × String)) : List String :=
  (dedupL (index.map (·.1) ++ head.map (·.1))).filter
    (fun p => !(lookupA index p == lookupA head p))

/-- Modelled from the spec: the VCS diff primitive (`git diff --cached
--no-color`), an external collaborator.  Its output is empty exactly when
the staged state equals HEAD; for changed paths it emits the standard
`--- a/`, `+++ b/` file headers (with `/dev/null` for creations) followed
by a synthetic hunk, which is all downstream code inspects. -/
def renderDiff (head index : List (String × String)) : String :=
  String.intercalate "\n" ((changedPaths head index).map (fun p =>
    "diff --git a/" ++ p ++ " b/" ++ p ++ "\n" ++
    (if (lookupA head p).isSome then "--- a/" ++ p else "--- /dev/null") ++
    "\n+++ b/" ++ p ++ "\n@@ -1,1 +1,1 @@\n-0\n+1"))

/-! ## `Runner._parse_file_content_format` (runner.py lines 209-333) -/

/-- Step 1 (runner.py lines 253-266): back up existing files (`copy2` to
`<path>.agent_backup`, overwriting any file already at that name) and write
the new content. -/
def writeFiles (fw : List (String × String)) (st : GitState)
    (written : List String) (backups : List (String × String)) :
    GitState × List String × List (String × String) :=
  match fw with
  | [] => (st, written, backups)
  | (p, c) :: t =>
    match lookupA st.fs p with
    | some old =>
      writeFiles t
        { st with fs := setA (setA st.fs (p ++ ".agent_backup") old) p c }
        (written ++ [p]) (backups ++ [(p, p ++ ".agent_backup")])
    | none =>
      writeFiles t { st with fs := setA st.fs p c } (written ++ [p]) backups

/-- Step 2 (runner.py lines 269-275): `git add` each written path, staging
its current content. -/
def stageFiles (written : List String) (st : GitState) : GitState :=
  written.foldl (fun st p =>
    match lookupA st.fs p with
    | some c => { st with index := setA st.index p c }
    | none => st) st

/-- Step 4a (runner.py lines 294-299): `git reset HEAD -- <paths>`, pointing
the index entries of the written paths back at HEAD. -/
def resetPaths (written : List String) (st : GitState) : GitState :=
  written.foldl (fun st p =>
    match lookupA st.head p with
    | some c => { st with index := setA st.index p c }
    | none => { st with index := eraseA st.index p }) st

/-- Backup restoration (runner.py lines 302-303 and 316-321):
`shutil.move(backup, original)` for each recorded backup. -/
def restoreBackups (backups : List (String × String)) (st : GitState) :
    GitState :=
  backups.foldl (fun st pb =>
    match lookupA st.fs pb.2 with
    | some c => { st with fs := setA (eraseA st.fs pb.2) pb.1 c }
    | none => st) st

/-- Deletion of newly created files that had no backup (runner.py lines
305-310 and 323-331). -/
def removeNew (written : List String) (backups : List (String × String))
    (st : GitState) : GitState :=
  written.foldl (fun st p =>
    if (backups.map (·.1)).contains p then st
    else if (lookupA st.fs p).isSome then { st with fs := eraseA st.fs p }
    else st) st

/-- Result of `_parse_file_content_format`: the `(success, error, diff)`
triple plus the working-copy state after the call. -/
structure ParseOut where
  ok : Bool
  err : Option String
  diff : Option String
  st : GitState
deriving DecidableEq, Repr

/-- Error text of the no-blocks rejection (runner.py line 229). -/
def msgNoBlocks : String :=
  "No file blocks found in format ===FILE_START: path=== ... ===FILE_END: path==="

/-- Error text of the empty-diff failure, as wrapped by the except branch
(runner.py lines 291 and 333). -/
def msgEmptyDiff : String :=
  "Error processing file content format: Generated diff is empty (no changes detected)"

/-- Embedding of `Runner._parse_file_content_format` (runner.py lines
209-333).  Note the except branch restores backups and deletes new files
but performs no `git reset`, exactly as the source does. -/
def parseFileContentFormat (content : String) (st0 : GitState) : ParseOut :=
  let blocks := findBlocks content
  if blocks.isEmpty then
    { ok := false, err := some msgNoBlocks, diff := none, st := st0 }
  else
    let fw := blocks.foldl (fun m pc => setA m (normPath pc.1) pc.2) []
    if fw.isEmpty then
      { ok := false, err := some "No valid file blocks found", diff := none,
        st := st0 }
    else
      match writeFiles fw st0 [] [] with
      | (st1, written, backups) =>
        let st2 := stageFiles written st1
        let diff := renderDiff st2.head st2.index
        if (pyStrip diff).isEmpty then
          let st3 := removeNew written backups (restoreBackups backups st2)
          { ok := false, err := some msgEmptyDiff, diff := none, st := st3 }
        else
          let st3 := resetPaths written st2
          let st4 := removeNew written backups (restoreBackups backups st3)
          { ok := true, err := none, diff := some diff, st := st4 }

/-! ## Milestones (milestones.py) -/

/-- A milestone record.  The source keeps milestones as YAML-loaded dicts;
optional fields model keys that may be absent.  `acceptance` and
`target_files` use the empty list for an absent key, matching the falsy
`.get(...)` tests in the source. -/
structure Milestone where
  id : String := ""
  title : String := ""
  status : String := ""
  attempts : Option Nat := none
  reason : Option String := none
  started_at : Option String := none
  completed_at : Option String := none
  target_files : List String := []
  acceptance : List String := []
deriving DecidableEq, Repr

/-- `get_next_todo_milestone` (milestones.py lines 7-12): first milestone
with status `todo`. -/
def getNextTodoMilestone (ms : List Milestone) : Option Milestone :=
  ms.find? (fun m => m.status == "todo")

/-- `update_milestone_status` (milestones.py lines 15-32): update the first
milestone with the given id.  `now` is the ambient clock
(`datetime.now().isoformat()`).  The source only sets `reason` when the
argument is truthy, which the `Option` models for the non-empty reasons the
callers pass. -/
def updateMilestoneStatus (ms : List Milestone) (mid status : String)
    (reason : Option String) (now : String) : List Milestone :=
  match ms with
  | [] => []
  | m :: t =>
    if m.id = mid then
      { m with
        status := status
        reason := match reason with | some r => some r | none => m.reason
        started_at := if status = "in_progress" then some now else m.started_at
        completed_at :=
          if status = "done" || status = "blocked" then some now
          else m.completed_at } :: t
    else m :: updateMilestoneStatus t mid status reason now

/-- The in-place `milestone["attempts"] = attempts` mutation (runner.py line
672), modelled as an update of the first milestone with the given id. -/
def setAttempts (ms : List Milestone) (mid : String) (n : Nat) :
    List Milestone :=
  match ms with
  | [] => []
  | m :: t =>
    if m.id = mid then { m with attempts := some n } :: t
    else m :: setAttempts t mid n

/-! ## Patch path extraction in milestone mode (runner.py lines 973-1006) -/

/-- Fuel-driven scan implementing the simple extraction regex
`===FILE_START:\s*(.+?)===` (runner.py line 989): at each marker, skip
whitespace, then the group is the (newline-free) text up to the first
`===`; the path is then stripped and a leading `/` dropped
(runner.py lines 990-994). -/
def extractStartAux (fuel : Nat) (s : List Char) : List String :=
  match fuel with
  | 0 => []
  | fuel + 1 =>
    match s with
    | [] => []
    | c :: t =>
      if leadsWith markerStart (c :: t) then
        let r := (List.drop markerStart.length (c :: t)).dropWhile isWS
        match splitAtSub ['=', '=', '='] r with
        | some (g, rest) =>
          if g.isEmpty || g.contains '\n' then extractStartAux fuel t
          else
            let p := pyStripL g
            let p := if leadsWith ['/'] p then p.drop 1 else p
            (⟨p⟩ : String) :: extractStartAux fuel rest
        | none => extractStartAux fuel t
      else extractStartAux fuel t

/-- All paths named by `===FILE_START:` markers in the model output. -/
def extractStartPaths (s : String) : List String :=
  extractStartAux (s.toList.length + 1) s.toList

/-- Paths named by `--- ` / `+++ ` headers of a unified diff, with `a/` and
`b/` normalization, excluding `/dev/null` (runner.py lines 976-985 and
997-1006); collected into an insertion-ordered set. -/
def diffHeaderPaths (s : String) : List String :=
  dedupL ((splitNl s.toList).filterMap (fun l =>
    if leadsWith ("--- ".toList) l || leadsWith ("+++ ".toList) l then
      let p0 := pyStripL (l.drop 4)
      let p1 :=
        if leadsWith ['a', '/'] p0 then p0.drop 2
        else if leadsWith ['b', '/'] p0 then p0.drop 2
        else p0
      if p1 == ("/dev/null".toList) then none else some (⟨p1⟩ : String)
    else none))

/-! ## The milestone flow (runner.py `Runner.run_milestone_mode`, lines
660-1118)

External collaborators (the model client, the GitHub client, git commands
beyond the normalization dance, acceptance subprocesses) are supplied as an
environment of call outcomes; the flow emits a trace of the side-effecting
calls it makes. -/

/-- Side-effecting external calls made by the milestone flow. -/
inductive Action where
  | modelCall
  | prLookup (branch : String)
  | ensureBranch (branch : String)
  | applyAttempt
  | gitApplyCheck
  | gitApply
  | acceptanceRun (cmd : String)
  | gitAddAll
  | gitCommit
  | gitPush
  | prCreate
deriving DecidableEq, Repr

/-- Outcomes of the flow's external calls.  `openai` carries either the
response text or the rendered `TypeName: message` of a raised exception. -/
structure FlowEnv where
  today : String
  now : String
  openai : Except String String
  existingPR : Option String
  branchOk : Bool
  lsFiles : String → List String
  applyCheckFail : Option String
  applyFail : Option String
  applyEffect : List (String × String) → List (String × String)
  accept : String → Option (String × String)
  prCreated : Option String

/-- Result of a milestone-flow run: return value, in-memory milestone list,
last persisted snapshot (`config.save()`), call trace and working-copy
state. -/
structure FlowOut where
  ret : Option String
  ml : List Milestone
  persisted : Option (List Milestone)
  trace : List Action
  git : GitState
deriving Repr

/-- Python `s.replace("_", "-")` on a character list. -/
def dashify : List Char → List Char
  | [] => []
  | '_' :: t => '-' :: dashify t
  | c :: t => c :: dashify t

/-- Deterministic head branch name of the milestone flow (runner.py lines
951-952): date prefix plus the milestone id with `_` mapped to `-`. -/
def branchNameFor (mid today : String) : String :=
  "agent/" ++ today ++ "-" ++ (⟨dashify mid.toList⟩ : String)

/-- Rejection text of the unified-diff format rejection (runner.py lines
1044-1048). -/
def msgUnifiedDiff : String :=
  "Model output unified diff format instead of file content format. The model must output complete file content using ===FILE_START: path=== ... ===FILE_END: path=== format. Unified diff format with line numbers is not supported and causes corrupt patch errors."

/-- Reason text of the out-of-target-scope rejection (runner.py lines
1029-1034). -/
def scopeReason (touched patterns : List String) : String :=
  "Patch touches files outside target_files: " ++ pyListRepr (touched.take 3) ++
    ". Must only modify files matching " ++ pyListRepr patterns

/-- The allowed file set of the target-scope validation (runner.py lines
1010-1022): `git ls-files` per pattern, stripped, non-empty lines, as an
insertion-ordered set. -/
def allowedOf (lsf : String → List String) (ps : List String) : List String :=
  dedupL (ps.flatMap
    (fun pat => ((lsf pat).map pyStrip).filter (fun s => !s.isEmpty)))

/-- Message of a rejecting verdict, `none` for `proceed`. -/
def verdictMsg : PatchVerdict → Option String
  | .noDiffFound m => some m
  | .placeholderHunk m => some m
  | .zeroLengthHunk m => some m
  | .missingHunkHeader m => some m
  | .placeholderPath _ m => some m
  | .targetFileMissing _ m => some m
  | .notRegularFile _ m => some m
  | .proceed _ => none

/-- Full `apply_patch` call (runner.py lines 335-510): the validation phase,
then `git apply --check` and `git apply`, whose outcomes the environment
supplies.  The line-number diagnostic enrichment of a failed dry run only
appends to the error text and is folded into the environment's string. -/
def applyPatchFull (patch : String) (st : GitState) (env : FlowEnv) :
    (Bool × Option String) × GitState × List Action :=
  let v := applyPatchVerdict patch (st.fs.map (·.1)) st.nonfiles
  match verdictMsg v with
  | some m => ((false, some m), st, [.applyAttempt])
  | none =>
    match env.applyCheckFail with
    | some e =>
      ((false, some ("Patch check failed: " ++ e)), st,
        [.applyAttempt, .gitApplyCheck])
    | none =>
      match env.applyFail with
      | some e =>
        ((false, some ("Patch apply failed: " ++ e)), st,
          [.applyAttempt, .gitApplyCheck, .gitApply])
      | none =>
        ((true, none), { st with fs := env.applyEffect st.fs },
          [.applyAttempt, .gitApplyCheck, .gitApply])

/-- Acceptance loop (runner.py lines 1073-1080): run each command in order,
stop at the first failure with its reason text. -/
def runAcceptance (cmds : List String) (env : FlowEnv) :
    List Action × Option String :=
  match cmds with
  | [] => ([], none)
  | c :: t =>
    match env.accept c with
    | some oe =>
      ([.acceptanceRun c],
        some ("Acceptance failed: " ++ c ++ "\nSTDOUT:\n" ++ oe.1 ++
          "\nSTDERR:\n" ++ oe.2))
    | none =>
      match runAcceptance t env with
      | (acts, r) => (.acceptanceRun c :: acts, r)

/-- Tail of the milestone flow from the `apply_patch` call onward
(runner.py lines 1063-1118).  In the branch where `create_pr` returns no PR
object, the source falls through to `return None` without any status
update, so the last persisted snapshot stays whatever it was. -/
def finishApply (mid : String) (acceptance : List String)
    (ms2 : List Milestone) (env : FlowEnv) (st : GitState)
    (baseTrace : List Action) (actual : String) : FlowOut :=
  match applyPatchFull actual st env with
  | ((false, err), st2, acts) =>
    let ms3 := updateMilestoneStatus ms2 mid "blocked"
      (some ("Patch apply failed: " ++ err.getD "")) env.now
    { ret := none, ml := ms3, persisted := some ms3,
      trace := baseTrace ++ acts, git := st2 }
  | ((true, _), st2, acts) =>
    match runAcceptance acceptance env with
    | (accActs, some reason) =>
      let ms3 := updateMilestoneStatus ms2 mid "blocked" (some reason) env.now
      { ret := none, ml := ms3, persisted := some ms3,
        trace := baseTrace ++ acts ++ accActs, git := st2 }
    | (accActs, none) =>
      let tr := baseTrace ++ acts ++ accActs ++
        [.gitAddAll, .gitCommit, .gitPush, .prCreate]
      match env.prCreated with
      | some url =>
        let ms3 := updateMilestoneStatus ms2 mid "done" none env.now
        { ret := some url, ml := ms3, persisted := some ms3, trace := tr,
          git := st2 }
      | none =>
        { ret := none, ml := ms2, persisted := some ms2, trace := tr,
          git := st2 }

/-- Embedding of `Runner.run_milestone_mode` (runner.py lines 660-1118).
Context gathering (lines 687-908) is read-only and exception-guarded, with
no observable effect on the state tracked here. -/
def runMilestoneMode (maxAttempts : Nat) (ms0 : List Milestone)
    (env : FlowEnv) (st0 : GitState) : FlowOut :=
  match getNextTodoMilestone ms0 with
  | none => { ret := none, ml := ms0, persisted := none, trace := [], git := st0 }
  | some m =>
    let attempts := m.attempts.getD 0 + 1
    let ms1 := setAttempts ms0 m.id attempts
    if attempts > maxAttempts then
      let ms2 := updateMilestoneStatus ms1 m.id "blocked"
        (some ("Exceeded max_attempts (" ++ toString maxAttempts ++ ")")) env.now
      { ret := none, ml := ms2, persisted := some ms2, trace := [], git := st0 }
    else
      let ms2 := updateMilestoneStatus ms1 m.id "in_progress" none env.now
      match env.openai with
      | .error e =>
        let ms3 := updateMilestoneStatus ms2 m.id "blocked"
          (some ("OpenAI exception: " ++ e)) env.now
        { ret := none, ml := ms3, persisted := some ms3,
          trace := [.modelCall], git := st0 }
      | .ok patch =>
        if patch = "" then
          let ms3 := updateMilestoneStatus ms2 m.id "blocked"
            (some "Failed to generate patch: empty response from call_openai")
            env.now
          { ret := none, ml := ms3, persisted := some ms3,
            trace := [.modelCall], git := st0 }
        else if pyStrip patch = "NO_PATCH" then
          let ms3 := updateMilestoneStatus ms2 m.id "blocked"
            (some "Model unable to safely generate a patch - insufficient context or unclear requirements")
            env.now
          { ret := none, ml := ms3, persisted := some ms3,
            trace := [.modelCall], git := st0 }
        else
          let branch := branchNameFor m.id env.today
          match env.existingPR with
          | some url =>
            let ms3 := updateMilestoneStatus ms2 m.id "done" none env.now
            { ret := some url, ml := ms3, persisted := some ms3,
              trace := [.modelCall, .prLookup branch], git := st0 }
          | none =>
            if !env.branchOk then
              let ms3 := updateMilestoneStatus ms2 m.id "blocked"
                (some ("Failed to prepare branch " ++ branch)) env.now
              { ret := none, ml := ms3, persisted := some ms3,
                trace := [.modelCall, .prLookup branch, .ensureBranch branch],
                git := st0 }
            else
              let po := parseFileContentFormat patch st0
              let parsedOk := po.ok && !(po.diff.getD "").isEmpty
              let touched :=
                if parsedOk then diffHeaderPaths (po.diff.getD "")
                else
                  let fromBlocks := dedupL (extractStartPaths patch)
                  if fromBlocks.isEmpty then diffHeaderPaths patch
                  else fromBlocks
              let baseTrace : List Action :=
                [.modelCall, .prLookup branch, .ensureBranch branch]
              let scopeHit :=
                if !m.target_files.isEmpty && !touched.isEmpty then
                  let allowed := allowedOf env.lsFiles m.target_files
                  !allowed.isEmpty &&
                    (touched.filter (fun p => allowed.contains p)).isEmpty
                else false
              if scopeHit then
                let ms3 := updateMilestoneStatus ms2 m.id "blocked"
                  (some (scopeReason touched m.target_files)) env.now
                { ret := none, ml := ms3, persisted := some ms3,
                  trace := baseTrace, git := po.st }
              else if parsedOk then
                finishApply m.id m.acceptance ms2 env po.st baseTrace
                  (po.diff.getD "")
              else if leadsWith ("--- ".toList) (pyStrip patch).toList ||
                  hasSubstr "--- a/" patch || hasSubstr "+++ b/" patch then
                let ms3 := updateMilestoneStatus ms2 m.id "blocked"
                  (some msgUnifiedDiff) env.now
                { ret := none, ml := ms3, persisted := some ms3,
                  trace := baseTrace, git := po.st }
              else
                finishApply m.id m.acceptance ms2 env po.st baseTrace patch

/-- Status of the first milestone with the given id in the last persisted
snapshot. -/
def persistedStatus (out : FlowOut) (mid : String) : Option String :=
  out.persisted.bind (fun l => (l.find? (fun m => m.id == mid)).map (·.status))

/-- Reason of the first milestone with the given id in the last persisted
snapshot. -/
def persistedReason (out : FlowOut) (mid : String) : Option String :=
  out.persisted.bind (fun l => (l.find? (fun m => m.id == mid)).bind (·.reason))

/-! ## Milestone persistence (config.py `Config.save` / `Config._load_yaml`)

`Config.save` rewrites the `milestones` key of reclaim.yaml with
`yaml.dump(..., default_flow_style=False, sort_keys=False)` and
`Config._load_yaml` reads it back with `yaml.safe_load`.  PyYAML is outside
src/, so the serialization layer is modelled from the spec ("writing ... to
storage and reading it back"): a block-style emitter that double-quotes any
scalar a YAML loader would not round-trip as the same plain string
(newlines, colons, quotes, numeric-looking text), and the matching
parser. -/

/-- Characters a scalar may contain and still be emitted plain. -/
def plainSafeChar (c : Char) : Bool :=
  c.isAlpha || c.isDigit || c = '_' || c = '-' || c = '.' || c = '/' ||
    c = ' '

/-- Would a plain emission of this scalar fail to round-trip (PyYAML quotes
exactly such scalars when dumping a `str`)? -/
def needsQuote (s : String) : Bool :=
  s.isEmpty || !(s.toList.all plainSafeChar) ||
    s.toList.head? == some ' ' || s.toList.getLast? == some ' ' ||
    s.toList.all (fun c => isDigitC c || c = '.' || c = '-')

/-- Double-quoted-style escaping. -/
def escQ : List Char → List Char
  | [] => []
  | '\\' :: t => '\\' :: '\\' :: escQ t
  | '"' :: t => '\\' :: '"' :: escQ t
  | '\n' :: t => '\\' :: 'n' :: escQ t
  | c :: t => c :: escQ t

/-- Inverse of `escQ`. -/
def unescQ : List Char → Option (List Char)
  | [] => some []
  | '\\' :: '\\' :: t => (unescQ t).map ('\\' :: ·)
  | '\\' :: '"' :: t => (unescQ t).map ('"' :: ·)
  | '\\' :: 'n' :: t => (unescQ t).map ('\n' :: ·)
  | '\\' :: _ => none
  | c :: t => (unescQ t).map (c :: ·)

/-- Modelled from the spec: scalar emission of the YAML storage layer. -/
def encScalar (s : String) : String :=
  if needsQuote s then "\"" ++ (⟨escQ s.toList⟩ : String) ++ "\"" else s

/-- Modelled from the spec: scalar parsing of the YAML storage layer. -/
def decScalar (s : String) : Option String :=
  match s.toList with
  | '"' :: t =>
    match t.reverse with
    | '"' :: mid => (unescQ mid.reverse).map (fun l => (⟨l⟩ : String))
    | _ => none
  | l => some ⟨l⟩

/-- One `key: value` line. -/
def encField (indent k v : String) : String :=
  indent ++ k ++ ": " ++ encScalar v

/-- Modelled from the spec: block-style emission of one milestone record,
in key insertion order, emitting only present keys. -/
def encMilestone (m : Milestone) : List String :=
  ("- " ++ "id: " ++ encScalar m.id) ::
  encField "  " "title" m.title ::
  encField "  " "status" m.status ::
  ((match m.attempts with
    | some n => ["  attempts: " ++ toString n]
    | none => []) ++
  (match m.reason with
    | some r => [encField "  " "reason" r]
    | none => []) ++
  (match m.started_at with
    | some r => [encField "  " "started_at" r]
    | none => []) ++
  (match m.completed_at with
    | some r => [encField "  " "completed_at" r]
    | none => []) ++
  (if m.target_files.isEmpty then []
   else "  target_files:" :: m.target_files.map (fun p => "  - " ++ encScalar p)) ++
  (if m.acceptance.isEmpty then []
   else "  acceptance:" :: m.acceptance.map (fun p => "  - " ++ encScalar p)))

/-- Modelled from the spec: `Config.save` (config.py lines 105-114), the
durable write of the milestone list under the `milestones` key. -/
def configSave (ms : List Milestone) : String :=
  String.intercalate "\n" ("milestones:" :: ms.flatMap encMilestone)

/-- Parses the decimal `attempts` value. -/
def parseNatDec (l : List Char) : Option Nat :=
  if l.isEmpty || !(l.all isDigitC) then none
  else some (l.foldl (fun n c => n * 10 + (c.toNat - '0'.toNat)) 0)

/-- Assigns one parsed key/value pair to a milestone record. -/
def assignField (m : Milestone) (k : String) (v : String) : Option Milestone :=
  if k = "id" then (decScalar v).map (fun s => { m with id := s })
  else if k = "title" then (decScalar v).map (fun s => { m with title := s })
  else if k = "status" then (decScalar v).map (fun s => { m with status := s })
  else if k = "attempts" then
    (parseNatDec v.toList).map (fun n => { m with attempts := some n })
  else if k = "reason" then
    (decScalar v).map (fun s => { m with reason := some s })
  else if k = "started_at" then
    (decScalar v).map (fun s => { m with started_at := some s })
  else if k = "completed_at" then
    (decScalar v).map (fun s => { m with completed_at := some s })
  else none

/-- Parses the body lines of one milestone item (indentation already
stripped), including nested string lists. -/
def parseItemLines (fuel : Nat) (m : Milestone) (lines : List (List Char)) :
    Option Milestone :=
  match fuel with
  | 0 => none
  | fuel + 1 =>
    match lines with
    | [] => some m
    | l :: t =>
      match splitAtSub (": ".toList) l with
      | some (k, v) =>
        match assignField m ⟨k⟩ ⟨v⟩ with
        | some m' => parseItemLines fuel m' t
        | none => none
      | none =>
        match l.reverse with
        | ':' :: krev =>
          let k : String := ⟨krev.reverse⟩
          let items := t.takeWhile (fun x => leadsWith ['-', ' '] x)
          let rest := t.dropWhile (fun x => leadsWith ['-', ' '] x)
          match (items.map (fun x => decScalar ⟨x.drop 2⟩)).allSome with
          | some vs =>
            if k = "target_files" then
              parseItemLines fuel { m with target_files := vs } rest
            else if k = "acceptance" then
              parseItemLines fuel { m with acceptance := vs } rest
            else none
          | none => none
        | _ => none

/-- Groups and parses the milestone items of the document body. -/
def parseItems (fuel : Nat) (lines : List (List Char)) :
    Option (List Milestone) :=
  match fuel with
  | 0 => none
  | fuel + 1 =>
    match lines with
    | [] => some []
    | l :: t =>
      if leadsWith ['-', ' '] l then
        let body := t.takeWhile (fun x => leadsWith [' ', ' '] x)
        let rest := t.dropWhile (fun x => leadsWith [' ', ' '] x)
        match parseItemLines (body.length + 2) {} ((l.drop 2) :: body.map (·.drop 2)) with
        | some m => (parseItems fuel rest).map (m :: ·)
        | none => none
      else none

/-- Modelled from the spec: `Config._load_yaml` (config.py lines 40-46)
restricted to the `milestones` document written by `configSave`. -/
def configLoadMilestones (doc : String) : Option (List Milestone) :=
  match splitNl doc.toList with
  | h :: rest =>
    if h = ("milestones:".toList) then parseItems (rest.length + 1) rest
    else none
  | [] => none

/-! ## Concrete fixtures -/

/-- Regular files of the working copy used by the `apply_patch` fixtures. -/
def demoFs : List String := ["x", "app/src/other.ts"]

/-- Spec fixture (1): placeholder hunk `@@ ... @@`. -/
def fixPlaceholderHunk : String := "--- a/x\n+++ b/x\n@@ ... @@\n-old\n+new"

/-- Spec fixture (2): zero-length hunk `@@ -5,0 +5,0 @@`. -/
def fixZeroLen : String := "--- a/x\n+++ b/x\n@@ -5,0 +5,0 @@"

/-- Spec fixture (3): headers but no `@@` line at all. -/
def fixNoHunk : String := "--- a/x\n+++ b/x\n context line"

/-- Spec fixture (4): header path `app/src/placeholder.ts`. -/
def fixPlaceholderPath : String :=
  "--- a/app/src/placeholder.ts\n+++ b/app/src/placeholder.ts\n@@ -1,2 +1,2 @@\n-a\n+b"

/-- Spec fixture (5): header path naming a nonexistent file. -/
def fixMissingFile : String :=
  "--- a/app/src/doesnotexist123.ts\n+++ b/app/src/doesnotexist123.ts\n@@ -1,1 +1,1 @@\n-a\n+b"

/-- Working copy whose tracked files include a pre-existing
`foo.agent_backup` alongside `foo`. -/
def c1PreState : GitState :=
  { fs := [("foo", "A"), ("foo.agent_backup", "B")]
  , index := [("foo", "A"), ("foo.agent_backup", "B")]
  , head := [("foo", "A"), ("foo.agent_backup", "B")] }

/-- A single well-formed whole-file block rewriting `foo`. -/
def c1Patch : String := "===FILE_START: foo===\nC\n===FILE_END: foo==="

/-- Working copy used by the milestone-flow fixtures. -/
def flowGit : GitState :=
  { fs := [("app/src/screens/Other.tsx", "old"), ("x", "xx")]
  , index := [("app/src/screens/Other.tsx", "old"), ("x", "xx")]
  , head := [("app/src/screens/Other.tsx", "old"), ("x", "xx")] }

/-- Baseline environment of the milestone-flow fixtures: model call
succeeds, no existing PR, branch preparation succeeds, the target-file
index query matches nothing, `git apply` succeeds and rewrites `x`,
acceptance commands pass, PR creation fails (non-201 response). -/
def flowEnvBase : FlowEnv :=
  { today := "20251012", now := "2025-10-12T10:00:00.000000"
  , openai := .ok "junk\n--- x\n+++ x\n@@ -1,1 +1,1 @@\n-a\n+b"
  , existingPR := none, branchOk := true
  , lsFiles := fun _ => []
  , applyCheckFail := none, applyFail := none
  , applyEffect := fun fs => setA fs "x" "changed"
  , accept := fun _ => none
  , prCreated := none }

/-- A single `todo` milestone. -/
def mstone : Milestone := { id := "m_1", title := "T", status := "todo" }

/-! ## Claim theorems -/

/-- Claim C1 (code_bug): the whole-file normalization is specified to return
the working copy to its pre-call state in all cases, but when the model
rewrites a file `foo` while a regular file `foo.agent_backup` already
exists, the backup `copy2` overwrites that pre-existing file and the
rollback `move` then deletes it: the call reports success, yet a file that
existed before the call is gone afterwards. -/
theorem c1_backup_file_destroyed :
    (parseFileContentFormat c1Patch c1PreState).ok = true ∧
    lookupA c1PreState.fs "foo.agent_backup" = some "B" ∧
    lookupA (parseFileContentFormat c1Patch c1PreState).st.fs
      "foo.agent_backup" = none := by
  refine ⟨?_, ?_, ?_⟩ <;> rfl

/-- Claim C2 (confirmed): each of the five literal malformed diffs of the
spec is rejected by the validation phase of `apply_patch` with the
correspondingly named rejection and never reaches `git apply --check`. -/
theorem c2_structural_rejections :
    (applyPatchVerdict fixPlaceholderHunk demoFs [] =
        .placeholderHunk msgPlaceholderHunk ∧
      invokesGitApply (applyPatchVerdict fixPlaceholderHunk demoFs []) = false) ∧
    (applyPatchVerdict fixZeroLen demoFs [] = .zeroLengthHunk msgZeroLenHunk ∧
      invokesGitApply (applyPatchVerdict fixZeroLen demoFs []) = false) ∧
    (applyPatchVerdict fixNoHunk demoFs [] = .missingHunkHeader msgMissingHunk ∧
      invokesGitApply (applyPatchVerdict fixNoHunk demoFs []) = false) ∧
    (applyPatchVerdict fixPlaceholderPath demoFs [] =
        .placeholderPath "app/src/placeholder.ts"
          (msgPlaceholderPath "app/src/placeholder.ts") ∧
      invokesGitApply (applyPatchVerdict fixPlaceholderPath demoFs []) = false) ∧
    (applyPatchVerdict fixMissingFile demoFs [] =
        .targetFileMissing "app/src/doesnotexist123.ts"
          (msgTargetMissing "app/src/doesnotexist123.ts") ∧
      invokesGitApply (applyPatchVerdict fixMissingFile demoFs []) = false) := by
  refine ⟨⟨?_, ?_⟩, ⟨?_, ?_⟩, ⟨?_, ?_⟩, ⟨?_, ?_⟩, ⟨?_, ?_⟩⟩ <;> rfl

/-- Claim C3 (code_bug): when `create_pr` returns no PR object after a
successful apply, acceptance, commit and push, `run_milestone_mode` falls
through to `return None` without any status transition, leaving the
milestone persisted as `in_progress` — there is no outermost safety net
that force-transitions it to `blocked` (run.py lines 70-74 only print and
exit). -/
theorem c3_pr_creation_leaves_in_progress :
    (runMilestoneMode 3 [mstone] flowEnvBase flowGit).ret = none ∧
    Action.prCreate ∈ (runMilestoneMode 3 [mstone] flowEnvBase flowGit).trace ∧
    persistedStatus (runMilestoneMode 3 [mstone] flowEnvBase flowGit) "m_1" =
      some "in_progress" := by
  refine ⟨rfl, ?_, rfl⟩
  decide

/-- A well-formed unified diff touching the existing file `x`. -/
def c4Patch : String := "--- a/x\n+++ b/x\n@@ -1,1 +1,1 @@\n-a\n+b"

/-- Environment whose model output is the unified diff `c4Patch`. -/
def c4Env : FlowEnv := { flowEnvBase with openai := .ok c4Patch }

/-- Claim C4 counterexample: the model output contains `--- `/`+++ ` diff
header lines and no whole-file block, yet milestone-mode ingestion does not
proceed to validation and apply — it blocks the milestone with the
unified-diff-unsupported message and never calls `apply_patch`. -/
theorem c4_unified_diff_rejected :
    hasSubstr "--- a/" c4Patch = true ∧
    findBlocks c4Patch = [] ∧
    persistedStatus (runMilestoneMode 3 [mstone] c4Env flowGit) "m_1" =
      some "blocked" ∧
    persistedReason (runMilestoneMode 3 [mstone] c4Env flowGit) "m_1" =
      some msgUnifiedDiff ∧
    Action.applyAttempt ∉ (runMilestoneMode 3 [mstone] c4Env flowGit).trace := by
  refine ⟨rfl, rfl, rfl, rfl, ?_⟩
  decide

/-- A milestone restricting edits to a training-library glob. -/
def c7Milestone : Milestone :=
  { id := "m_1", title := "T", status := "todo"
  , target_files := ["app/src/lib/training/**"] }

/-- A whole-file block rewriting a screen file outside the training glob. -/
def c7Patch : String :=
  "===FILE_START: app/src/screens/Other.tsx===\nnew content\n===FILE_END: app/src/screens/Other.tsx==="

/-- Environment for the C7 counterexample: the index query for the target
patterns matches zero files, and PR creation succeeds. -/
def c7Env : FlowEnv :=
  { flowEnvBase with openai := .ok c7Patch, prCreated := some "http://pr/2" }

set_option maxRecDepth 8000 in
/-- Claim C7 counterexample: the milestone declares `target_files`, the
patch touches only an out-of-scope file and the intersection with the
allowed set is empty (the patterns match zero index files) — yet nothing is
rejected: the flow proceeds to `apply_patch`, modifies the working copy and
marks the milestone `done`. -/
theorem c7_empty_allowed_skips_scope :
    c7Milestone.target_files ≠ [] ∧
    allowedOf c7Env.lsFiles c7Milestone.target_files = [] ∧
    diffHeaderPaths ((parseFileContentFormat c7Patch flowGit).diff.getD "") =
      ["app/src/screens/Other.tsx"] ∧
    Action.applyAttempt ∈
      (runMilestoneMode 3 [c7Milestone] c7Env flowGit).trace ∧
    persistedStatus (runMilestoneMode 3 [c7Milestone] c7Env flowGit) "m_1" =
      some "done" ∧
    (runMilestoneMode 3 [c7Milestone] c7Env flowGit).git.fs ≠ flowGit.fs := by
  refine ⟨?_, rfl, rfl, ?_, rfl, ?_⟩ <;> decide

/-- A two-file unified diff whose second `--- ` header names a placeholder
path that also does not exist in the working copy. -/
def c8Patch : String :=
  "--- a/x\n+++ b/x\n@@ -1,1 +1,1 @@\n-foo\n+bar\n--- a/app/placeholder.ts\n+++ b/app/placeholder.ts\n@@ -1,1 +1,1 @@\n-a\n+b"

/-- Claim C8 counterexample: a later `--- ` header of the validated diff
trips the placeholder-path predicate (and names a nonexistent file), yet
`apply_patch` validation succeeds and goes on to invoke `git apply`: only
the first `--- ` header is ever checked. -/
theorem c8_second_header_not_checked :
    (splitNl c8Patch.toList).any
      (fun l => leadsWith ("--- ".toList) l &&
        placeholderPathHit (headerPathOf l)) = true ∧
    (demoFs.map String.toList).contains
      (headerPathOf ("--- a/app/placeholder.ts".toList)) = false ∧
    invokesGitApply (applyPatchVerdict c8Patch demoFs []) = true := by
  refine ⟨?_, ?_, ?_⟩ <;> rfl

/-- Milestone list before the C9 transitions: four `todo` milestones, the
fourth carrying target globs and an acceptance command. -/
def c9Base : List Milestone :=
  [ { id := "m1", title := "First", status := "todo" }
  , { id := "m2", title := "Second", status := "todo" }
  , { id := "m3", title := "Third", status := "todo" }
  , { id := "m4", title := "Fourth", status := "todo"
    , target_files := ["app/src/lib/training/**"], acceptance := ["npm test"] } ]

/-- The C9 list: one `todo`, one `in_progress` with a `started_at`
timestamp, one `done` with a `completed_at` timestamp, and one `blocked`
whose reason embeds newlines and colons — built with the source's
`update_milestone_status`. -/
def c9List : List Milestone :=
  updateMilestoneStatus
    (updateMilestoneStatus
      (updateMilestoneStatus c9Base "m2" "in_progress" none
        "2025-10-12T08:00:00.000001")
      "m3" "done" none "2025-10-12T09:30:00.123456")
    "m4" "blocked"
    (some "Acceptance failed: npm test\nSTDOUT:\nerr: boom\nSTDERR:\nfail: x")
    "2025-10-12T10:00:00.000002"

/-- Claim C9 (confirmed): persisting the four-status milestone list with
the save path and re-loading it is an exact round-trip — every field,
including the timestamp strings and the newline/colon-laden blocked reason,
is reproduced exactly. -/
theorem c9_milestone_roundtrip :
    configLoadMilestones (configSave c9List) = some c9List := by
  rfl

/-! ## Helper lemmas for the general flow theorems -/

/-- A text with no `===FILE_START:` occurrence yields no blocks. -/
theorem findBlocksAux_of_no_marker (fuel : Nat) :
    ∀ s, hasSub markerStart s = false → findBlocksAux fuel s = [] := by
  induction fuel with
  | zero => intro s _; rfl
  | succ n ih =>
    intro s h
    cases s with
    | nil => rfl
    | cons c t =>
      rw [hasSub] at h
      rw [Bool.or_eq_false_iff] at h
      rw [findBlocksAux, h.1]
      exact ih t h.2

/-- A text with no `===FILE_START:` occurrence yields no blocks. -/
theorem findBlocks_of_no_marker (p : String)
    (h : hasSub markerStart p.toList = false) : findBlocks p = [] :=
  findBlocksAux_of_no_marker _ _ h

/-- A text with no `===FILE_START:` occurrence yields no extracted paths. -/
theorem extractStartAux_of_no_marker (fuel : Nat) :
    ∀ s, hasSub markerStart s = false → extractStartAux fuel s = [] := by
  induction fuel with
  | zero => intro s _; rfl
  | succ n ih =>
    intro s h
    cases s with
    | nil => rfl
    | cons c t =>
      rw [hasSub] at h
      rw [Bool.or_eq_false_iff] at h
      rw [extractStartAux, h.1]
      exact ih t h.2

/-- A text with no `===FILE_START:` occurrence yields no extracted paths. -/
theorem extractStartPaths_of_no_marker (p : String)
    (h : hasSub markerStart p.toList = false) : extractStartPaths p = [] :=
  extractStartAux_of_no_marker _ _ h

/-- With no blocks found, `_parse_file_content_format` fails with the
no-blocks message and leaves the working-copy state untouched. -/
theorem parseFCF_of_no_blocks (p : String) (st : GitState)
    (h : findBlocks p = []) :
    parseFileContentFormat p st =
      { ok := false, err := some msgNoBlocks, diff := none, st := st } := by
  unfold parseFileContentFormat
  rw [h]
  rfl

/-- A flatMap of a function returning `[]` everywhere is `[]`. -/
theorem flatMap_eq_nil_of (ps : List String) (f : String → List String)
    (h : ∀ p, f p = []) : ps.flatMap f = [] := by
  induction ps with
  | nil => rfl
  | cons a t ih => simp [List.flatMap_cons, h, ih]

/-- If the index query matches nothing for any pattern, the allowed set is
empty. -/
theorem allowedOf_of_empty_ls (lsf : String → List String) (ps : List String)
    (h : ∀ p, lsf p = []) : allowedOf lsf ps = [] := by
  unfold allowedOf
  rw [flatMap_eq_nil_of]
  · rfl
  · intro p; rw [h]; rfl

/-- Every `apply_patch` call records an `applyAttempt`, whatever its
outcome. -/
theorem applyAttempt_mem_applyPatchFull (p : String) (st : GitState)
    (env : FlowEnv) :
    Action.applyAttempt ∈ (applyPatchFull p st env).2.2 := by
  rcases hv : verdictMsg (applyPatchVerdict p (st.fs.map (·.1)) st.nonfiles)
    with _ | m
  · rcases hc : env.applyCheckFail with _ | e
    · rcases ha : env.applyFail with _ | e
      · simp [applyPatchFull, hv, hc, ha]
      · simp [applyPatchFull, hv, hc, ha]
    · simp [applyPatchFull, hv, hc]
  · simp [applyPatchFull, hv]

/-- The tail of the flow from the `apply_patch` call onward always has an
`applyAttempt` in its trace. -/
theorem applyAttempt_mem_finishApply (mid : String) (acc : List String)
    (ms2 : List Milestone) (env : FlowEnv) (st : GitState)
    (bt : List Action) (actual : String) :
    Action.applyAttempt ∈ (finishApply mid acc ms2 env st bt actual).trace := by
  have h := applyAttempt_mem_applyPatchFull actual st env
  unfold finishApply
  rcases happ : applyPatchFull actual st env with ⟨⟨ok, err⟩, st2, acts⟩
  rw [happ] at h
  cases ok with
  | false => simpa using Or.inr h
  | true =>
    rcases hacc : runAcceptance acc env with ⟨accActs, r⟩
    cases r with
    | some reason => simp [h]
    | none =>
      cases env.prCreated with
      | some url => simp [h]
      | none => simp [h]

/-- Claim C6 (confirmed): a `todo` milestone picked up with its attempts
counter already at the configured ceiling is transitioned directly to
`blocked` with a reason naming the ceiling, the transition is persisted,
and the model is never called. -/
theorem c6_attempt_ceiling (m : Milestone) (maxA : Nat) (env : FlowEnv)
    (st : GitState) (hs : m.status = "todo") (ha : m.attempts = some maxA) :
    (runMilestoneMode maxA [m] env st).ret = none ∧
    persistedStatus (runMilestoneMode maxA [m] env st) m.id =
      some "blocked" ∧
    persistedReason (runMilestoneMode maxA [m] env st) m.id =
      some ("Exceeded max_attempts (" ++ toString maxA ++ ")") ∧
    Action.modelCall ∉ (runMilestoneMode maxA [m] env st).trace := by
  have h1 : getNextTodoMilestone [m] = some m := by
    simp [getNextTodoMilestone, List.find?, hs]
  simp only [runMilestoneMode, h1, ha, Option.getD_some,
    Nat.lt_succ_self, if_pos, setAttempts, updateMilestoneStatus,
    if_true, eq_self_iff_true]
  simp [persistedStatus, persistedReason, List.find?]

/-- Claim C6 witness: the ceiling theorem applied at a concrete milestone
with `attempts = max_attempts = 3`. -/
theorem c6_attempt_ceiling_witness :
    (runMilestoneMode 3 [{ mstone with attempts := some 3 }] flowEnvBase
      flowGit).ret = none ∧
    persistedStatus (runMilestoneMode 3 [{ mstone with attempts := some 3 }]
      flowEnvBase flowGit) ({ mstone with attempts := some 3 } : Milestone).id =
      some "blocked" ∧
    persistedReason (runMilestoneMode 3 [{ mstone with attempts := some 3 }]
      flowEnvBase flowGit) ({ mstone with attempts := some 3 } : Milestone).id =
      some ("Exceeded max_attempts (" ++ toString (3 : Nat) ++ ")") ∧
    Action.modelCall ∉ (runMilestoneMode 3 [{ mstone with attempts := some 3 }]
      flowEnvBase flowGit).trace :=
  c6_attempt_ceiling { mstone with attempts := some 3 } 3 flowEnvBase flowGit
    rfl rfl

/-- Claim C5 (confirmed): whatever else the environment holds, the flow
looks up the PR under the branch name `branchNameFor m.id env.today`, a
function of the milestone id and the calendar date alone; and when a PR for
that branch already exists, the run returns its URL, persists the milestone
as `done`, and performs no branch creation, commit, push or PR creation. -/
theorem c5_idempotent_existing_pr (m : Milestone) (maxA : Nat)
    (env : FlowEnv) (st : GitState) (patch url : String)
    (hs : m.status = "todo") (ha : m.attempts.getD 0 + 1 ≤ maxA)
    (hoai : env.openai = .ok patch) (hp1 : ¬ patch = "")
    (hp2 : ¬ pyStrip patch = "NO_PATCH")
    (hpr : env.existingPR = some url) :
    (runMilestoneMode maxA [m] env st).ret = some url ∧
    persistedStatus (runMilestoneMode maxA [m] env st) m.id = some "done" ∧
    (runMilestoneMode maxA [m] env st).trace =
      [Action.modelCall, Action.prLookup (branchNameFor m.id env.today)] ∧
    Action.ensureBranch (branchNameFor m.id env.today) ∉
      (runMilestoneMode maxA [m] env st).trace ∧
    Action.gitCommit ∉ (runMilestoneMode maxA [m] env st).trace ∧
    Action.gitPush ∉ (runMilestoneMode maxA [m] env st).trace ∧
    Action.prCreate ∉ (runMilestoneMode maxA [m] env st).trace := by
  have h1 : getNextTodoMilestone [m] = some m := by
    simp [getNextTodoMilestone, List.find?, hs]
  have h2 : ¬ (m.attempts.getD 0 + 1 > maxA) := by omega
  simp only [runMilestoneMode, h1, hoai, hpr, if_neg h2, if_neg hp1,
    if_neg hp2]
  simp [persistedStatus, updateMilestoneStatus, setAttempts, List.find?]

/-- Claim C5 witness: the idempotency theorem applied at a concrete
milestone, date and existing PR. -/
theorem c5_idempotent_existing_pr_witness :
    (runMilestoneMode 3 [mstone]
      { flowEnvBase with existingPR := some "http://pr/1" } flowGit).ret =
        some "http://pr/1" ∧
    persistedStatus (runMilestoneMode 3 [mstone]
      { flowEnvBase with existingPR := some "http://pr/1" } flowGit)
      mstone.id = some "done" ∧
    (runMilestoneMode 3 [mstone]
      { flowEnvBase with existingPR := some "http://pr/1" } flowGit).trace =
      [Action.modelCall, Action.prLookup (branchNameFor mstone.id
        ({ flowEnvBase with existingPR := some "http://pr/1" } : FlowEnv).today)] ∧
    Action.ensureBranch (branchNameFor mstone.id
        ({ flowEnvBase with existingPR := some "http://pr/1" } : FlowEnv).today) ∉
      (runMilestoneMode 3 [mstone]
        { flowEnvBase with existingPR := some "http://pr/1" } flowGit).trace ∧
    Action.gitCommit ∉ (runMilestoneMode 3 [mstone]
      { flowEnvBase with existingPR := some "http://pr/1" } flowGit).trace ∧
    Action.gitPush ∉ (runMilestoneMode 3 [mstone]
      { flowEnvBase with existingPR := some "http://pr/1" } flowGit).trace ∧
    Action.prCreate ∉ (runMilestoneMode 3 [mstone]
      { flowEnvBase with existingPR := some "http://pr/1" } flowGit).trace :=
  c5_idempotent_existing_pr mstone 3
    { flowEnvBase with existingPR := some "http://pr/1" } flowGit
    "junk\n--- x\n+++ x\n@@ -1,1 +1,1 @@\n-a\n+b" "http://pr/1"
    rfl (by decide) rfl (by decide) (by decide) rfl

/-- Claim C4 as amended (the source rejects unified-diff output in
milestone mode instead of falling back to it): when no whole-file block is
found and the text looks like a unified diff (starts with `--- ` or
contains `--- a/` or `+++ b/`), the milestone is blocked with the
unified-diff-unsupported message, `apply_patch` is never invoked, and the
working copy is untouched. -/
theorem c4_amended_unified_diff_blocked (m : Milestone) (maxA : Nat)
    (env : FlowEnv) (st : GitState) (patch : String)
    (hs : m.status = "todo") (htf : m.target_files = [])
    (ha : m.attempts.getD 0 + 1 ≤ maxA)
    (hoai : env.openai = .ok patch) (hp1 : ¬ patch = "")
    (hp2 : ¬ pyStrip patch = "NO_PATCH")
    (hpr : env.existingPR = none) (hb : env.branchOk = true)
    (hnm : hasSub markerStart patch.toList = false)
    (hdiff : (leadsWith ("--- ".toList) (pyStrip patch).toList ||
      hasSubstr "--- a/" patch || hasSubstr "+++ b/" patch) = true) :
    (runMilestoneMode maxA [m] env st).ret = none ∧
    persistedStatus (runMilestoneMode maxA [m] env st) m.id =
      some "blocked" ∧
    persistedReason (runMilestoneMode maxA [m] env st) m.id =
      some msgUnifiedDiff ∧
    Action.applyAttempt ∉ (runMilestoneMode maxA [m] env st).trace ∧
    (runMilestoneMode maxA [m] env st).git = st := by
  have h1 : getNextTodoMilestone [m] = some m := by
    simp [getNextTodoMilestone, List.find?, hs]
  have h2 : ¬ (m.attempts.getD 0 + 1 > maxA) := by omega
  have h4 : parseFileContentFormat patch st =
      { ok := false, err := some msgNoBlocks, diff := none, st := st } :=
    parseFCF_of_no_blocks patch st (findBlocks_of_no_marker patch hnm)
  have h5 : extractStartPaths patch = [] :=
    extractStartPaths_of_no_marker patch hnm
  simp only [runMilestoneMode, h1, hoai, hpr, hb, if_neg h2, if_neg hp1,
    if_neg hp2, h4, h5, htf]
  simp only [hdiff]
  simp [persistedStatus, persistedReason, updateMilestoneStatus,
    setAttempts, List.find?, dedupL]

/-- Claim C4 witness: the amended theorem applied to a concrete unified
diff. -/
theorem c4_amended_witness :
    (runMilestoneMode 3 [mstone] c4Env flowGit).ret = none ∧
    persistedStatus (runMilestoneMode 3 [mstone] c4Env flowGit) mstone.id =
      some "blocked" ∧
    persistedReason (runMilestoneMode 3 [mstone] c4Env flowGit) mstone.id =
      some msgUnifiedDiff ∧
    Action.applyAttempt ∉ (runMilestoneMode 3 [mstone] c4Env flowGit).trace ∧
    (runMilestoneMode 3 [mstone] c4Env flowGit).git = flowGit :=
  c4_amended_unified_diff_blocked mstone 3 c4Env flowGit c4Patch rfl rfl
    (by decide) rfl (by decide) (by decide) rfl rfl (by decide) (by decide)

/-- Claim C7 as amended: provided the target patterns match at least one
indexed file and at least one path is extracted from the (blockless,
diff-shaped) patch, an empty intersection between touched paths and the
allowed set blocks the milestone with a reason naming the touched paths and
the allowed patterns, `apply_patch` is never invoked, and no file on disk
is modified. -/
theorem c7_amended_scope_rejection (m : Milestone) (maxA : Nat)
    (env : FlowEnv) (st : GitState) (patch : String)
    (hs : m.status = "todo") (ha : m.attempts.getD 0 + 1 ≤ maxA)
    (hoai : env.openai = .ok patch) (hp1 : ¬ patch = "")
    (hp2 : ¬ pyStrip patch = "NO_PATCH")
    (hpr : env.existingPR = none) (hb : env.branchOk = true)
    (hnm : hasSub markerStart patch.toList = false)
    (htf : m.target_files.isEmpty = false)
    (hts : (diffHeaderPaths patch).isEmpty = false)
    (hall : (allowedOf env.lsFiles m.target_files).isEmpty = false)
    (hint : ((diffHeaderPaths patch).filter
      (fun p => (allowedOf env.lsFiles m.target_files).contains p)).isEmpty
        = true) :
    (runMilestoneMode maxA [m] env st).ret = none ∧
    persistedStatus (runMilestoneMode maxA [m] env st) m.id =
      some "blocked" ∧
    persistedReason (runMilestoneMode maxA [m] env st) m.id =
      some (scopeReason (diffHeaderPaths patch) m.target_files) ∧
    Action.applyAttempt ∉ (runMilestoneMode maxA [m] env st).trace ∧
    (runMilestoneMode maxA [m] env st).git = st := by
  have h1 : getNextTodoMilestone [m] = some m := by
    simp [getNextTodoMilestone, List.find?, hs]
  have h2 : ¬ (m.attempts.getD 0 + 1 > maxA) := by omega
  have h4 : parseFileContentFormat patch st =
      { ok := false, err := some msgNoBlocks, diff := none, st := st } :=
    parseFCF_of_no_blocks patch st (findBlocks_of_no_marker patch hnm)
  have h5 : extractStartPaths patch = [] :=
    extractStartPaths_of_no_marker patch hnm
  have hc1 : ¬ diffHeaderPaths patch = [] := by
    intro h
    rw [h] at hts
    simp at hts
  have hc2 : ∀ a ∈ diffHeaderPaths patch,
      a ∉ allowedOf env.lsFiles m.target_files := by
    intro a hmem hin
    have hmemf : a ∈ List.filter
        (fun p => (allowedOf env.lsFiles m.target_files).contains p)
        (diffHeaderPaths patch) := by
      rw [List.mem_filter]
      exact ⟨hmem, by simpa using hin⟩
    rw [List.isEmpty_iff] at hint
    rw [hint] at hmemf
    simp at hmemf
  simp only [runMilestoneMode, h1, hoai, hpr, hb, if_neg h2, if_neg hp1,
    if_neg hp2, h4, h5, dedupL, List.foldl_nil, List.isEmpty_nil,
    Bool.not_true, Bool.not_false, Bool.false_eq_true, if_false, if_true,
    htf, hts, hall, hint, Bool.true_and, Bool.and_true, Bool.and_self,
    eq_self_iff_true]
  simp [persistedStatus, persistedReason, updateMilestoneStatus,
    setAttempts, List.find?, hc1, hc2]
  rw [if_pos hc2]
  simp [persistedStatus, persistedReason, List.find?]

/-- Unified diff used by the C7 witness: touches only a screen file. -/
def c7aPatch : String :=
  "--- a/app/src/screens/Other.tsx\n+++ b/app/src/screens/Other.tsx\n@@ -1,1 +1,1 @@\n-a\n+b"

/-- Environment for the C7 witness: the index query matches one training
file, so the allowed set is non-empty and disjoint from the touched set. -/
def c7aEnv : FlowEnv :=
  { flowEnvBase with
    openai := .ok c7aPatch,
    lsFiles := fun _ => ["app/src/lib/training/train.ts"] }

/-- Claim C7 witness: the amended scope-rejection theorem applied at a
concrete milestone, patch and environment. -/
theorem c7_amended_witness :
    (runMilestoneMode 3 [c7Milestone] c7aEnv flowGit).ret = none ∧
    persistedStatus (runMilestoneMode 3 [c7Milestone] c7aEnv flowGit)
      c7Milestone.id = some "blocked" ∧
    persistedReason (runMilestoneMode 3 [c7Milestone] c7aEnv flowGit)
      c7Milestone.id =
      some (scopeReason (diffHeaderPaths c7aPatch) c7Milestone.target_files) ∧
    Action.applyAttempt ∉
      (runMilestoneMode 3 [c7Milestone] c7aEnv flowGit).trace ∧
    (runMilestoneMode 3 [c7Milestone] c7aEnv flowGit).git = flowGit :=
  c7_amended_scope_rejection c7Milestone 3 c7aEnv flowGit c7aPatch rfl
    (by decide) rfl (by decide) (by decide) rfl rfl (by decide) rfl
    (by decide) (by decide) (by decide)

/-- Claim C10 (confirmed): when the whole-file normalization succeeds, the
out-of-target-scope rejection fires only if both the touched set and the
allowed set are non-empty — if the target patterns match zero index files,
or no path can be extracted from the generated diff, the scope check is
skipped and the flow proceeds to `apply_patch` regardless of which files
the patch touches. -/
theorem c10_scope_check_skipped (m : Milestone) (maxA : Nat)
    (env : FlowEnv) (st st1 : GitState) (patch d : String)
    (perr : Option String)
    (hs : m.status = "todo") (ha : m.attempts.getD 0 + 1 ≤ maxA)
    (hoai : env.openai = .ok patch) (hp1 : ¬ patch = "")
    (hp2 : ¬ pyStrip patch = "NO_PATCH")
    (hpr : env.existingPR = none) (hb : env.branchOk = true)
    (hpo : parseFileContentFormat patch st =
      { ok := true, err := perr, diff := some d, st := st1 })
    (hd : d.isEmpty = false)
    (hskip : (allowedOf env.lsFiles m.target_files).isEmpty = true ∨
      (diffHeaderPaths d).isEmpty = true) :
    Action.applyAttempt ∈ (runMilestoneMode maxA [m] env st).trace := by
  have h1 : getNextTodoMilestone [m] = some m := by
    simp [getNextTodoMilestone, List.find?, hs]
  have h2 : ¬ (m.attempts.getD 0 + 1 > maxA) := by omega
  simp only [runMilestoneMode, h1, hoai, hpr, hb, if_neg h2, if_neg hp1,
    if_neg hp2, hpo, Option.getD_some, hd, Bool.not_false, Bool.and_true,
    Bool.true_and, Bool.and_self, eq_self_iff_true, if_true, ite_true]
  rcases hskip with hall | htouch
  · simp only [hall, Bool.not_true, Bool.false_and, ite_self,
      Bool.false_eq_true, if_false, ite_true]
    exact applyAttempt_mem_finishApply _ _ _ _ _ _ _
  · simp only [htouch, ite_true, Bool.not_true, Bool.and_false,
      Bool.false_eq_true, if_false]
    exact applyAttempt_mem_finishApply _ _ _ _ _ _ _

set_option maxRecDepth 16000 in
/-- Claim C10 witness: the scope-skip theorem applied to a whole-file patch
touching a screen file while the milestone's training glob matches zero
index files. -/
theorem c10_scope_check_skipped_witness :
    Action.applyAttempt ∈
      (runMilestoneMode 3 [c7Milestone] c7Env flowGit).trace :=
  c10_scope_check_skipped c7Milestone 3 c7Env flowGit
    (parseFileContentFormat c7Patch flowGit).st c7Patch
    ((parseFileContentFormat c7Patch flowGit).diff.getD "") none
    rfl (by decide) rfl (by decide) (by decide) rfl rfl (by rfl)
    (by decide) (Or.inl (by decide))

/-- Claim C8 as amended: only the FIRST `--- ` header of a structurally
valid diff is validated — if its path trips the placeholder predicate the
diff is rejected as a placeholder path; if it names a nonexistent path
(other than `/dev/null`) the diff is rejected naming that path; and if the
first header's path is a real file, validation proceeds to the VCS apply
step no matter what later headers contain. -/
theorem c8_amended_first_header_only (patch : String)
    (fsFiles nonFiles : List String) (cl : List (List Char))
    (h : List Char)
    (hdrop : dropTillHeader (splitNl (pyStrip patch).toList) = some cl)
    (hph : cl.any placeholderLine = false)
    (hzl : cl.any zeroLenLine = false)
    (hhh : cl.any hunkHeaderLine = true)
    (hfind : cl.find? (fun l => leadsWith ("--- ".toList) l) = some h) :
    (placeholderPathHit (headerPathOf h) = true →
      applyPatchVerdict patch fsFiles nonFiles =
        .placeholderPath ⟨headerPathOf h⟩
          (msgPlaceholderPath ⟨headerPathOf h⟩)) ∧
    (placeholderPathHit (headerPathOf h) = false →
      (headerPathOf h == ("/dev/null".toList)) = false →
      (fsFiles.map String.toList).contains (headerPathOf h) = false →
      (nonFiles.map String.toList).contains (headerPathOf h) = false →
      applyPatchVerdict patch fsFiles nonFiles =
        .targetFileMissing ⟨headerPathOf h⟩
          (msgTargetMissing ⟨headerPathOf h⟩)) ∧
    (placeholderPathHit (headerPathOf h) = false →
      (fsFiles.map String.toList).contains (headerPathOf h) = true →
      ∃ c, applyPatchVerdict patch fsFiles nonFiles = .proceed c) := by
  unfold applyPatchVerdict
  simp only [hdrop, hph, hzl, hhh, hfind, Bool.not_true, Bool.false_eq_true,
    if_false, ite_true, ite_false]
  refine ⟨?_, ?_, ?_⟩
  · intro hP
    simp only [hP, eq_self_iff_true, if_true, ite_true]
  · intro h1 h2 h3 h4
    simp only [h1, h2, h3, h4, Bool.false_eq_true, if_false, ite_false]
  · intro h1 h2
    by_cases hdn : headerPathOf h = ("/dev/null".toList)
    · refine ⟨joinNl cl, ?_⟩
      rw [hdn] at h1
      simp only [h1, hdn, Bool.false_eq_true, if_false, ite_false,
        beq_self_eq_true, eq_self_iff_true, if_true, ite_true]
    · refine ⟨joinNl cl, ?_⟩
      have hdnb : (headerPathOf h == ("/dev/null".toList)) = false := by
        simp only [beq_eq_false_iff_ne, ne_eq]
        exact hdn
      simp only [h1, hdnb, h2, Bool.false_eq_true, if_false, ite_false,
        eq_self_iff_true, if_true, ite_true]

/-- Claim C8 witness: the amended theorem applied to the two-header diff
whose first header targets the real file `x` — validation proceeds even
though the second header is a nonexistent placeholder path. -/
theorem c8_amended_first_header_only_witness :
    ∃ c, applyPatchVerdict c8Patch demoFs [] = .proceed c :=
  (c8_amended_first_header_only c8Patch demoFs []
    ((dropTillHeader (splitNl (pyStrip c8Patch).toList)).getD [])
    ((((dropTillHeader (splitNl (pyStrip c8Patch).toList)).getD []).find?
      (fun l => leadsWith ("--- ".toList) l)).getD [])
    (by decide) (by decide) (by decide) (by decide) (by decide)).2.2
    (by decide) (by decide)

end Reclaim
